import Mathlib

/-
Verification development for the dashboard-api backend.

The shallow embedding below translates the content rotation / caching
subsystem and the mode-filtered aggregation layer:

* `src/utils/cacheManager.js` (`CacheManager` over the node-cache store);
  the node-cache dependency itself is modelled from its documented
  behaviour (explicit ttl 0 = never expire, omitted ttl = `stdTTL`,
  an entry is expired iff its livetime `t` satisfies `t ≠ 0 ∧ t < now`);
* the multi-source art service (`fetchArtworkPool`, `getArtworkByOrientation`,
  `enabledSources`, `pickWeightedSource`) with `config/art.js`;
* the dashboard aggregator (`aggregateDashboard`, `filterUrgentTasks`,
  `getNextEvent`, `formatWeatherData`, `formatTransitData`) with
  `config/modes.js` (`getMode`).

External network adapters (the per-provider `fetchFromSource` calls and the
weather / transit / lifestack services) are collaborators: their results enter
the embedding as explicit oracle parameters, exactly as the aggregator's
wrappers observe them.  Wall-clock instants are explicit `now` parameters in
milliseconds.  JS `null` / `undefined` are modelled as `Option.none`;
exceptions as `Except.error`.
-/

namespace DashboardApi

/-- JS truthiness of an optional string: `undefined`, `null` and `""` are
falsy.  Used for the `!artwork.imageUrl` check in `fetchArtworkPool`. -/
def jsFalsyStr : Option String → Bool
  | none => true
  | some s => s == ""

/-- One entry of the underlying node-cache store: the stored value and its
livetime `t` in ms since epoch; `t = 0` means the entry never expires. -/
structure NCEntry (V : Type) where
  val : V
  t : Int
deriving DecidableEq

/-- The node-cache store backing `CacheManager`: the default TTL in seconds
(`stdTTL`, 300 under `config/cache.js` defaults) and the key-to-entry map,
modelled as an association list in which the newest binding for a key is
first. -/
structure NCache (V : Type) where
  stdTTL : Int
  store : List (String × NCEntry V)
deriving DecidableEq

/-- Raw lookup of a key's entry, ignoring expiry. -/
def ncLookup {V : Type} (c : NCache V) (k : String) : Option (NCEntry V) :=
  (c.store.find? (fun p => p.1 == k)).map (·.2)

/-- node-cache expiry check: an entry is live iff `t = 0` (never expires) or
`now ≤ t`; it counts as expired exactly when `t ≠ 0 ∧ t < now`. -/
def ncLive {V : Type} (now : Nat) (e : NCEntry V) : Bool :=
  decide (e.t = 0) || decide ((now : Int) ≤ e.t)

/-- node-cache `get` at instant `now`: a present but expired entry behaves as
a miss, independent of the background sweep. -/
def ncGet {V : Type} (c : NCache V) (now : Nat) (k : String) : Option V :=
  match ncLookup c k with
  | some e => if ncLive now e then some e.val else none
  | none => none

/-- The livetime node-cache computes on `set`: an explicit ttl of `0` means
never expire, any other explicit ttl means `now + ttl·1000`, and an omitted
ttl falls back to `stdTTL` (never expire when `stdTTL = 0`). -/
def ncLivetime {V : Type} (c : NCache V) (now : Nat) (ttl : Option Int) : Int :=
  match ttl with
  | some t0 => if t0 = 0 then 0 else (now : Int) + t0 * 1000
  | none => if c.stdTTL = 0 then 0 else (now : Int) + c.stdTTL * 1000

/-- node-cache `set`: replaces any existing binding of the key and stores the
computed livetime. -/
def ncSet {V : Type} (c : NCache V) (now : Nat) (k : String) (v : V)
    (ttl : Option Int) : NCache V :=
  { c with store := (k, ⟨v, ncLivetime c now ttl⟩) :: c.store.filter (fun p => !(p.1 == k)) }

/-- JS truthiness of the `CacheManager` wrapper's `ttl` argument: falsy when
omitted (`null`) or `0`. -/
def ttlTruthy : Option Int → Bool
  | none => false
  | some t => decide (t ≠ 0)

/-- `CacheManager.get`: node-cache `get` with `undefined` mapped to `null`
(both are `none` here). -/
def cmGet {V : Type} (c : NCache V) (now : Nat) (k : String) : Option V :=
  ncGet c now k

/-- `CacheManager.set(key, value, ttl = null)`: a truthy `ttl` is passed
through to node-cache, otherwise node-cache's `set` runs without a ttl and the
store's `stdTTL` applies.  In particular an explicit `ttl = 0` is falsy and
therefore does not reach node-cache's never-expire branch. -/
def cmSet {V : Type} (c : NCache V) (now : Nat) (k : String) (v : V)
    (ttl : Option Int) : NCache V :=
  if ttlTruthy ttl then ncSet c now k v ttl else ncSet c now k v none

/-- `CacheManager.getOrSet(key, fetchFunction, ttl)` with a value producer
(the producer's outcome is the oracle argument): on a non-null hit return the
cached value; on a miss run the producer, cache its result unless it is
`null`/`undefined`, and return it; a producer failure is rethrown.  The
returned triple is (result, cache state after the call, whether the producer
was invoked). -/
def cmGetOrSet {V : Type} (c : NCache V) (now : Nat) (k : String)
    (producer : Except String (Option V)) (ttl : Option Int) :
    Except String (Option V) × NCache V × Bool :=
  match cmGet c now k with
  | some v => (.ok (some v), c, false)
  | none =>
    match producer with
    | .error e => (.error e, c, true)
    | .ok none => (.ok none, c, true)
    | .ok (some v) => (.ok (some v), cmSet c now k v ttl, true)

/-- `CacheManager.getOrSet` with a producer that itself reads and writes the
shared cache (the rotation producer does: it caches the freshly built pool).
Same contract as `cmGetOrSet`, with the producer run on the current state. -/
def cmGetOrSetF {V : Type} (c : NCache V) (now : Nat) (k : String)
    (producer : NCache V → Except String (Option V) × NCache V)
    (ttl : Option Int) :
    Except String (Option V) × NCache V × Bool :=
  match cmGet c now k with
  | some v => (.ok (some v), c, false)
  | none =>
    match producer c with
    | (.error e, c1) => (.error e, c1, true)
    | (.ok none, c1) => (.ok none, c1, true)
    | (.ok (some v), c1) => (.ok (some v), cmSet c1 now k v ttl, true)

/-- A content item as produced by the art source adapters (`normalizeArtic`,
`normalizeMet`, `normalizeCleveland`): display fields plus the identity
fields `source` (the source key) and `id`.  `imageUrl` is `none` when the
adapter produced no usable image URL. -/
structure Artwork where
  imageUrl : Option String
  title : String
  artist : String
  date : String
  id : String
  style : String
  itemOrientation : Option String
  source : String
deriving DecidableEq

/-- The dedupe identity string `fetchArtworkPool` builds for an item:
the template string of `artwork.source` and `artwork.id`. -/
def dedupeKey (a : Artwork) : String :=
  a.source ++ ":" ++ a.id

/-- Per-source configuration from `config/art.js`: enabled flag and weight
(the provider-specific filter vocabulary is consumed only by the external
adapters and is omitted). -/
structure SourceCfg where
  enabled : Bool
  weight : Int
deriving DecidableEq

/-- The art configuration surface consumed by the art service. -/
structure ArtConfig where
  poolSize : Nat
  poolTtlSeconds : Int
  rotationIntervals : List (String × Nat)
  sources : List (String × SourceCfg)
deriving DecidableEq

/-- The concrete configuration shipped in `config/art.js`. -/
def artConfig : ArtConfig :=
  { poolSize := 12
    poolTtlSeconds := 3600
    rotationIntervals := [("portrait", 300), ("landscape", 420), ("tv", 360)]
    sources :=
      [("artic", ⟨true, 35⟩), ("met", ⟨true, 35⟩),
       ("cleveland", ⟨true, 20⟩), ("giphy", ⟨false, 0⟩)] }

/-- `enabledSources()`: the enabled entries of the weight table, each with
effective weight `cfg.weight || 1` (a configured weight of `0` is falsy in JS
and becomes `1`). -/
def enabledSources (cfg : ArtConfig) : List (String × Int) :=
  (cfg.sources.filter (fun p => p.2.enabled)).map
    (fun p => (p.1, if p.2.weight = 0 then 1 else p.2.weight))

/-- The accumulating walk inside `pickWeightedSource`: the first source whose
cumulative weight reaches the roll is selected. -/
def pickWalk : List (String × Int) → ℚ → ℚ → Option String
  | [], _, _ => none
  | (k, w) :: rest, roll, cursor =>
    let cursor1 := cursor + (w : ℚ)
    if roll ≤ cursor1 then some k else pickWalk rest roll cursor1

/-- `pickWeightedSource(sourceEntries)` with the uniform draw
`roll ∈ [0, totalWeight)` passed as an oracle; falls back to the first
entry's key when the walk selects nothing. -/
def pickWeightedSource (entries : List (String × Int)) (roll : ℚ) : Option String :=
  match pickWalk entries roll 0 with
  | some k => some k
  | none => entries.head?.map (·.1)

/-- One oracle per fetch attempt: the outcome of the selected adapter's
`fetchFromSource` call (the weighted pick and the network call are external
I/O, indexed here by the attempt counter). -/
abbrev FetchOracle := Nat → Except String Artwork

/-- The fetch loop of `fetchArtworkPool`: runs while attempts remain (`fuel`
counts the remaining attempts out of `poolSize × 4`) and fewer than
`poolSize` items are collected; a failed attempt is skipped, and a fetched
item is skipped when it has no usable image URL or its dedupe key is already
in `seen`.  Returns the collected pool and the number of attempts consumed. -/
def poolLoop (oracle : FetchOracle) (poolSize : Nat) :
    Nat → Nat → List Artwork → List String → List Artwork × Nat
  | 0, _, acc, _ => (acc, 0)
  | fuel + 1, attempt, acc, seen =>
    if poolSize ≤ acc.length then (acc, 0)
    else
      match oracle attempt with
      | .error _ =>
        let r := poolLoop oracle poolSize fuel (attempt + 1) acc seen
        (r.1, r.2 + 1)
      | .ok aw =>
        if jsFalsyStr aw.imageUrl || seen.contains (dedupeKey aw) then
          let r := poolLoop oracle poolSize fuel (attempt + 1) acc seen
          (r.1, r.2 + 1)
        else
          let r := poolLoop oracle poolSize fuel (attempt + 1)
            (acc ++ [aw]) (seen ++ [dedupeKey aw])
          (r.1, r.2 + 1)

/-- The failure message of an empty pool build, with the JS template's
`orientation || ''` interpolation. -/
def poolFailMsg (o : Option String) : String :=
  "Failed to fetch any " ++ o.getD "" ++ " artworks for pool"

/-- `fetchArtworkPool(poolSize, orientation, filters)`: fails fatally when no
sources are enabled; otherwise runs the fetch loop with an attempt budget of
`poolSize × 4` and fails exactly when nothing was collected.  The orientation
and filters influence only the adapter calls (absorbed by the oracle) and the
failure message. -/
def fetchArtworkPool (cfg : ArtConfig) (poolSize : Nat) (o : Option String)
    (oracle : FetchOracle) : Except String (List Artwork) :=
  if (enabledSources cfg).isEmpty then .error "No art sources enabled"
  else if ((poolLoop oracle poolSize (poolSize * 4) 0 [] []).1).isEmpty then
    .error (poolFailMsg o)
  else .ok (poolLoop oracle poolSize (poolSize * 4) 0 [] []).1

/-- The values the art service stores in the shared cache: a single artwork
under a rotation-slot key, or a whole pool under a pool key. -/
inductive CVal where
  | item : Artwork → CVal
  | pool : List Artwork → CVal
deriving DecidableEq

/-- The shared cache state, as the art service sees it. -/
abbrev CState := NCache CVal

/-- `FALLBACK_ARTWORK = null`: the configured sentinel returned when both the
rotation path and the stale-pool fallback fail. -/
def FALLBACK_ARTWORK : Option CVal := none

/-- The filter-signature suffix `filters.styles ? ':' + styles.join('-') : ''`
(an empty styles array is truthy in JS and yields the bare `":"`). -/
def filterKey (filters : Option (List String)) : String :=
  match filters with
  | some styles => ":" ++ String.intercalate "-" styles
  | none => ""

/-- The pool cache key `artwork:pool:{orientation}{filterKey}`. -/
def poolKey (orientation : String) (filters : Option (List String)) : String :=
  "artwork:pool:" ++ orientation ++ filterKey filters

/-- The rotation-slot cache key
`artwork:rotation:{orientation}{filterKey}:{slot}`. -/
def rotationKey (orientation : String) (filters : Option (List String))
    (slot : Nat) : String :=
  "artwork:rotation:" ++ orientation ++ filterKey filters ++ ":" ++ toString slot

/-- `ROTATION_INTERVALS[orientation] || ROTATION_INTERVALS.landscape` over
the configured cadences (a missing or zero entry falls back to the landscape
cadence). -/
def rotationInterval (cfg : ArtConfig) (orientation : String) : Nat :=
  let landscape := (cfg.rotationIntervals.lookup "landscape").getD 0
  match cfg.rotationIntervals.lookup orientation with
  | some v => if v = 0 then landscape else v
  | none => landscape

/-- The producer `getArtworkByOrientation` hands to `cacheManager.getOrSet`:
read the cached pool, rebuild and cache it (ttl `ARTWORK_CACHE_TTL`) when it
is absent or empty, then serve `pool[rotationSlot % pool.length]`.  An
out-of-range index (JS `undefined`, unreachable for the non-empty pools that
occur) produces `none`. -/
def rotProducer (cfg : ArtConfig) (oracle : FetchOracle) (now : Nat)
    (orientation : String) (filters : Option (List String)) (rotationSlot : Nat)
    (c : CState) : Except String (Option CVal) × CState :=
  let pk := poolKey orientation filters
  let cachedPool : Option (List Artwork) :=
    match cmGet c now pk with
    | some (.pool p) => if p.isEmpty then none else some p
    | _ => none
  match cachedPool with
  | some p =>
    match p[rotationSlot % p.length]? with
    | some aw => (.ok (some (.item aw)), c)
    | none => (.ok none, c)
  | none =>
    match fetchArtworkPool cfg cfg.poolSize (some orientation) oracle with
    | .error e => (.error e, c)
    | .ok p =>
      let c1 := cmSet c now pk (.pool p) (some cfg.poolTtlSeconds)
      match p[rotationSlot % p.length]? with
      | some aw => (.ok (some (.item aw)), c1)
      | none => (.ok none, c1)

/-- The `cacheManager.getOrSet` call at the heart of
`getArtworkByOrientation`: key `rotationKey` for the slot
`floor(now / (interval · 1000))`, ttl equal to the rotation interval. -/
def rotCall (cfg : ArtConfig) (oracle : FetchOracle) (now : Nat)
    (orientation : String) (filters : Option (List String)) (c : CState) :
    Except String (Option CVal) × CState × Bool :=
  cmGetOrSetF c now
    (rotationKey orientation filters (now / (rotationInterval cfg orientation * 1000)))
    (rotProducer cfg oracle now orientation filters
      (now / (rotationInterval cfg orientation * 1000)))
    (some ((rotationInterval cfg orientation : Nat) : Int))

/-- `getArtworkByOrientation(orientation, filters)`: the rotation `getOrSet`
wrapped in the catch-all fallback — on any failure return the first element
of a still-cached pool when one exists, else `FALLBACK_ARTWORK`; the caller
never sees an exception. -/
def getArtworkByOrientation (cfg : ArtConfig) (oracle : FetchOracle) (now : Nat)
    (orientation : String) (filters : Option (List String)) (c : CState) :
    Option CVal × CState :=
  match rotCall cfg oracle now orientation filters c with
  | (.ok v, c1, _) => (v, c1)
  | (.error _, c1, _) =>
    match cmGet c1 now (poolKey orientation filters) with
    | some (.pool (a :: _)) => (some (.item a), c1)
    | _ => (FALLBACK_ARTWORK, c1)

/-- Which data categories a dashboard mode includes (`config/modes.js`);
flags a mode's object omits are `undefined`, hence falsy, hence `false`. -/
structure ModeIncludes where
  weather : Bool
  transit : Bool
  calendar : Bool
  tasks : Bool
  nextEvent : Bool
  urgentTasksOnly : Bool := false
deriving DecidableEq

/-- A named dashboard mode with optional per-mode art style filters. -/
structure Mode where
  name : String
  includes : ModeIncludes
  artStyles : Option (List String) := none
deriving DecidableEq

/-- The `personal` mode (the configured default). -/
def personalMode : Mode :=
  { name := "Personal"
    includes :=
      { weather := true, transit := true, calendar := true,
        tasks := true, nextEvent := true } }

/-- The style list the `gallery` mode passes to the rotation manager. -/
def galleryStyles : List String :=
  ["Cubism", "Expressionism", "Surrealism", "Abstract", "Minimalism",
   "Constructivism", "Symbolism", "Suprematism", "Bauhaus"]

/-- The `MODES` table of `config/modes.js`, keyed by the lowercase mode key. -/
def MODES : List (String × Mode) :=
  [("personal", personalMode),
   ("guest",
    { name := "Guest"
      includes :=
        { weather := true, transit := true, calendar := false,
          tasks := false, nextEvent := false } }),
   ("transit",
    { name := "Transit"
      includes :=
        { weather := false, transit := true, calendar := false,
          tasks := false, nextEvent := false } }),
   ("morning",
    { name := "Morning"
      includes :=
        { weather := true, transit := true, calendar := false,
          tasks := true, nextEvent := true, urgentTasksOnly := true } }),
   ("work",
    { name := "Work"
      includes :=
        { weather := false, transit := false, calendar := true,
          tasks := true, nextEvent := true } }),
   ("gallery",
    { name := "Gallery"
      includes :=
        { weather := true, transit := true, calendar := false,
          tasks := false, nextEvent := false }
      artStyles := some galleryStyles })]

/-- The `modeName?.toLowerCase()` call: ASCII lowercasing, character by
character (the configured keys are ASCII). -/
def jsToLower (s : String) : String := ⟨s.data.map Char.toLower⟩

/-- The property names every plain object inherits from `Object.prototype`
(with their exact JS casing; property access is case-sensitive).  Each of
these is a truthy function or object, so `MODES[key]` finds them even though
they are not modes. -/
def objectProtoProps : List String :=
  ["constructor", "hasOwnProperty", "isPrototypeOf", "propertyIsEnumerable",
   "toLocaleString", "toString", "valueOf",
   "__defineGetter__", "__defineSetter__", "__lookupGetter__",
   "__lookupSetter__", "__proto__"]

/-- What the JS property access `MODES[modeName?.toLowerCase()]` can produce
inside `getMode`: an own entry of the `MODES` literal (a real mode), or a
truthy member inherited from `Object.prototype` — an object that is not a
mode. -/
inductive JsMode where
  | mode : Mode → JsMode
  | protoJunk : JsMode
deriving DecidableEq

/-- `getMode(modeName)`: property access finds an own `MODES` entry first,
then a member inherited from `Object.prototype` (truthy, so it bypasses the
`!mode` fallback and is returned even though it is not a mode), and only for
a genuinely absent property does the personal-mode fallback apply. -/
def getMode (modeName : String) : JsMode :=
  match MODES.lookup (jsToLower modeName) with
  | some m => .mode m
  | none =>
    if objectProtoProps.contains (jsToLower modeName) then .protoJunk
    else .mode personalMode

/-- The result shape of the aggregator's per-category fetch wrappers:
`{success: true, data}` or `{success: false, error, data: null/[]}`. -/
inductive FR (α : Type) where
  | ok (data : α)
  | fail (error : String)
deriving DecidableEq

/-- Whether a wrapped fetch succeeded (`result.success`). -/
def frIsOk {α : Type} : FR α → Bool
  | .ok _ => true
  | .fail _ => false

/-- `fetchResults.x?.data || []` for the list-valued categories: the failure
wrappers set `data: []`, so both a failure and an absent result yield `[]`. -/
def frListData {α : Type} : FR (List α) → List α
  | .ok l => l
  | .fail _ => []

/-- The weather payload fields `formatWeatherData` projects. -/
structure Weather where
  temp : Int
  condition : String
  feelsLike : Int
  humidity : Int
  high : Int
  low : Int
  icon : String
  description : String
deriving DecidableEq

/-- `formatWeatherData(weatherResult)`: `null` unless the fetch succeeded with
non-null data, else the projected record. -/
def formatWeatherData : FR (Option Weather) → Option Weather
  | .ok (some w) =>
    some { temp := w.temp, condition := w.condition, feelsLike := w.feelsLike,
           humidity := w.humidity, high := w.high, low := w.low,
           icon := w.icon, description := w.description }
  | _ => none

/-- Opaque arrival/prediction entries copied verbatim by the transit
formatter. -/
abbrev Arrival := String

/-- The `buses.routes['77']` object, as far as the formatter reads it. -/
structure BusRoute77 where
  eastbound : Option (List Arrival)
  westbound : Option (List Arrival)
deriving DecidableEq

/-- A train line's north/south arrival lists. -/
structure TrainLine where
  north : Option (List Arrival)
  south : Option (List Arrival)
deriving DecidableEq

/-- The transit payload shape `formatTransitData` destructures, with the
optional-chaining joints (`buses?.routes?.['77']`, `trains?.lines?.red`, …)
modelled as options. -/
structure TransitRaw where
  route77 : Option BusRoute77
  red : Option TrainLine
  brown : Option TrainLine
deriving DecidableEq

/-- The formatted transit object served on the dashboard. -/
structure TransitOut where
  busesEast : List Arrival
  busesWest : List Arrival
  redNorth : List Arrival
  redSouth : List Arrival
  brownNorth : List Arrival
  brownSouth : List Arrival
deriving DecidableEq

/-- `formatTransitData(transitResult)`: `null` unless the fetch succeeded with
non-null data; each direction falls back to `[]` through the chain of `?.`
and `|| []`. -/
def formatTransitData : FR (Option TransitRaw) → Option TransitOut
  | .ok (some t) =>
    some { busesEast := (t.route77.bind (·.eastbound)).getD []
           busesWest := (t.route77.bind (·.westbound)).getD []
           redNorth := (t.red.bind (·.north)).getD []
           redSouth := (t.red.bind (·.south)).getD []
           brownNorth := (t.brown.bind (·.north)).getD []
           brownSouth := (t.brown.bind (·.south)).getD [] }
  | _ => none

/-- A calendar event; `start`/`startTime` and `ending`/`endTime` are the two
field spellings the aggregator accepts (`ending` models `event.end`, a name
Lean reserves).  Instants are ms since epoch. -/
structure Event where
  start : Option Int
  startTime : Option Int
  ending : Option Int
  endTime : Option Int
deriving DecidableEq

/-- `moment(event.start || event.startTime)`: a missing value makes `moment`
default to the current instant. -/
def effStart (now : Int) (e : Event) : Int :=
  ((e.start).orElse (fun _ => e.startTime)).getD now

/-- Stable insertion of `a` into a list ascending by `key` (before the first
element with a strictly larger key). -/
def insertByKey {α : Type} (key : α → Int) (a : α) : List α → List α
  | [] => [a]
  | b :: bs => if key b < key a then b :: insertByKey key a bs else a :: b :: bs

/-- The stable ascending sort of `Array.prototype.sort` with a numeric-diff
comparator, modelled as stable insertion sort by the key. -/
def sortByKey {α : Type} (key : α → Int) : List α → List α
  | [] => []
  | a :: rest => insertByKey key a (sortByKey key rest)

/-- `getNextEvent(events)`: keep events whose end (or, lacking one, start) is
strictly after now, sort ascending by start, and take the first. -/
def getNextEvent (now : Int) (events : List Event) : Option Event :=
  if events.isEmpty then none
  else
    let upcoming := events.filter (fun e =>
      match (e.ending).orElse (fun _ => e.endTime) with
      | some en => decide (now < en)
      | none => decide (now < effStart now e))
    (sortByKey (effStart now) upcoming).head?

/-- A task; `due`/`dueDate` are the two accepted due-time spellings. -/
structure Task where
  completed : Bool
  status : String
  due : Option Int
  dueDate : Option Int
deriving DecidableEq

/-- `moment(task.due || task.dueDate)`. -/
def effDue (now : Int) (t : Task) : Int :=
  ((t.due).orElse (fun _ => t.dueDate)).getD now

/-- `filterUrgentTasks(tasks)`: drop completed tasks and tasks with no due
time, keep those due before now + 24h (including overdue ones), sorted
ascending by due time. -/
def filterUrgentTasks (now : Int) (tasks : List Task) : List Task :=
  if tasks.isEmpty then []
  else
    let urgentThreshold := now + 24 * 60 * 60 * 1000
    let urgent := tasks.filter (fun t =>
      !(t.completed || t.status == "completed") &&
      !((t.due).isNone && (t.dueDate).isNone) &&
      decide (effDue now t < urgentThreshold))
    sortByKey (effDue now) urgent

/-- The `{artworkCenter, artworkRight, artworkTV}` object returned by
`getCurrentArtwork` (each slot `null` when its rotation fell back). -/
structure ArtworkSet where
  artworkCenter : Option Artwork
  artworkRight : Option Artwork
  artworkTV : Option Artwork
deriving DecidableEq

/-- The settled outcomes of the aggregator's wrapped fetches, one per
category (the oracle view of `fetchWeatherData` … `fetchArtworkData`). -/
structure FetchOutcomes where
  weather : FR (Option Weather)
  transit : FR (Option TransitRaw)
  calendar : FR (List Event)
  tasks : FR (List Task)
  artwork : FR ArtworkSet
deriving DecidableEq

/-- The error-map contribution of one fetched category. -/
def failEntry {α : Type} (key : String) : FR α → List (String × String)
  | .ok _ => []
  | .fail e => [(key, e)]

/-- The `errors` object of `aggregateDashboard`, in fetch-key insertion order
(only fetched categories appear; artwork is always fetched and always
last). -/
def dashboardErrors (m : Mode) (out : FetchOutcomes) : List (String × String) :=
  (if m.includes.weather then failEntry "weather" out.weather else []) ++
  (if m.includes.transit then failEntry "transit" out.transit else []) ++
  (if m.includes.calendar then failEntry "calendar" out.calendar else []) ++
  (if m.includes.tasks then failEntry "tasks" out.tasks else []) ++
  failEntry "artwork" out.artwork

/-- The composite dashboard response.  An outer `none` on a conditional field
means the field is absent from the JS object (its category was not included);
`timestamp` models the ISO string of the aggregation instant. -/
structure Dashboard where
  mode : String
  timestamp : Int
  weather : Option (Option Weather) := none
  transit : Option (Option TransitOut) := none
  events : Option (List Event) := none
  nextEvent : Option (Option Event) := none
  tasks : Option (List Task) := none
  artworkCenter : Option Artwork
  artworkRight : Option Artwork
  artworkTV : Option Artwork
  errors : Option (List (String × String)) := none
deriving DecidableEq

/-- The body of `aggregateDashboard` once `getMode` has produced a real mode:
fan out one wrapped fetch per included category (artwork is fetched
unconditionally) and assemble the filtered composite plus the per-category
error map.  The echoed `mode` field is the raw requested name, not the
resolved mode's key. -/
def buildDashboard (now : Int) (modeName : String) (mode : Mode)
    (out : FetchOutcomes) : Dashboard :=
  let calendarData := if mode.includes.calendar then frListData out.calendar else []
  let aw : ArtworkSet :=
    match out.artwork with
    | .ok a => a
    | .fail _ => ⟨none, none, none⟩
  let errs := dashboardErrors mode out
  { mode := modeName
    timestamp := now
    weather :=
      if mode.includes.weather then some (formatWeatherData out.weather) else none
    transit :=
      if mode.includes.transit then some (formatTransitData out.transit) else none
    events := if mode.includes.calendar then some calendarData else none
    nextEvent :=
      if mode.includes.nextEvent then some (getNextEvent now calendarData) else none
    tasks :=
      if mode.includes.tasks then
        some (if mode.includes.urgentTasksOnly then
                filterUrgentTasks now (frListData out.tasks)
              else frListData out.tasks)
      else none
    artworkCenter := aw.artworkCenter
    artworkRight := aw.artworkRight
    artworkTV := aw.artworkTV
    errors := if errs.isEmpty then none else some errs }

/-- The `TypeError` Node raises when `getMode` returned an inherited
`Object.prototype` member and `aggregateDashboard` reads
`mode.includes.weather` on it (`mode.includes` is `undefined`). -/
def protoModeTypeError : String :=
  "TypeError: Cannot read properties of undefined (reading 'weather')"

/-- `aggregateDashboard(modeName)`: resolve the mode and build the composite.
When the name resolves to a real mode (an own `MODES` entry, or the personal
fallback for a genuinely unknown name) the composite is returned; when
property access found an inherited `Object.prototype` member instead, the
first `mode.includes.weather` read throws and no composite is produced. -/
def aggregateDashboard (now : Int) (modeName : String) (out : FetchOutcomes) :
    Except String Dashboard :=
  match getMode modeName with
  | .mode mode => .ok (buildDashboard now modeName mode out)
  | .protoJunk => .error protoModeTypeError

deriving instance DecidableEq for Except

/-- Sample item used to instantiate the theorems below on concrete inputs. -/
def sampleArtwork : Artwork :=
  { imageUrl := some "https://example.org/a.jpg", title := "T", artist := "A",
    date := "1900", id := "1", style := "S", itemOrientation := none,
    source := "artic" }

/-- A one-source, pool-size-one configuration for concrete instantiations. -/
def tinyArtConfig : ArtConfig :=
  { poolSize := 1, poolTtlSeconds := 3600,
    rotationIntervals := [("portrait", 1), ("landscape", 1), ("tv", 1)],
    sources := [("artic", ⟨true, 1⟩)] }

/-- An always-succeeding fetch oracle. -/
def okOracle : FetchOracle := fun _ => .ok sampleArtwork

/-- An always-failing fetch oracle. -/
def errOracle : FetchOracle := fun _ => .error "boom"

/-- An empty cache with the default `stdTTL` of 300 s. -/
def emptyCache : CState := ⟨300, []⟩

/-- The cache state after a first successful rotation call on `emptyCache`
with `tinyArtConfig`, orientation `portrait`, no filters, at `now = 0`. -/
def rotState1 : CState :=
  ⟨300, [("artwork:rotation:portrait:0", ⟨.item sampleArtwork, 1000⟩),
         ("artwork:pool:portrait", ⟨.pool [sampleArtwork], 3600000⟩)]⟩

/-- All-success aggregator outcomes used for concrete instantiations. -/
def sampleOutcomes : FetchOutcomes :=
  { weather := .ok none, transit := .ok none, calendar := .ok [],
    tasks := .ok [], artwork := .ok ⟨some sampleArtwork, none, none⟩ }

/-- Aggregator outcomes in which exactly the weather fetch fails. -/
def oneFailOutcomes : FetchOutcomes :=
  { weather := .fail "boom", transit := .ok none, calendar := .ok [],
    tasks := .ok [], artwork := .ok ⟨some sampleArtwork, none, none⟩ }

/-- Looking a key up right after `ncSet` returns the fresh entry. -/
theorem ncLookup_ncSet_self {V : Type} (c : NCache V) (now : Nat) (k : String)
    (v : V) (ttl : Option Int) :
    ncLookup (ncSet c now k v ttl) k = some ⟨v, ncLivetime c now ttl⟩ := by
  simp [ncLookup, ncSet, List.find?]

/-- Looking a key up right after `cmSet` finds the value (whatever livetime
the wrapper chose). -/
theorem ncLookup_cmSet_self {V : Type} (c : NCache V) (now : Nat) (k : String)
    (v : V) (ttl : Option Int) :
    (ncLookup (cmSet c now k v ttl) k).map (·.val) = some v := by
  unfold cmSet
  split <;> simp [ncLookup_ncSet_self]

/-- C5: `getOrSet(key, producer, ttl)` returns the cached value without
invoking the producer on a hit; on a miss it invokes the producer, caches the
produced value unless it is null/absent, and returns it; and a producer
failure propagates to the caller with the cache state unchanged (nothing is
cached for the key). -/
theorem getOrSet_contract {V : Type} (c : NCache V) (now : Nat) (k : String)
    (producer : Except String (Option V)) (ttl : Option Int) :
    (∀ v, cmGet c now k = some v →
      cmGetOrSet c now k producer ttl = (.ok (some v), c, false)) ∧
    (cmGet c now k = none → ∀ v, producer = .ok (some v) →
      cmGetOrSet c now k producer ttl = (.ok (some v), cmSet c now k v ttl, true) ∧
      (ncLookup (cmSet c now k v ttl) k).map (·.val) = some v) ∧
    (cmGet c now k = none → producer = .ok none →
      cmGetOrSet c now k producer ttl = (.ok none, c, true)) ∧
    (cmGet c now k = none → ∀ e, producer = .error e →
      cmGetOrSet c now k producer ttl = (.error e, c, true)) := by
  refine ⟨?_, ?_, ?_, ?_⟩
  · intro v hv
    simp [cmGetOrSet, hv]
  · intro hmiss v hv
    exact ⟨by simp [cmGetOrSet, hmiss, hv], ncLookup_cmSet_self c now k v ttl⟩
  · intro hmiss hv
    simp [cmGetOrSet, hmiss, hv]
  · intro hmiss e hv
    simp [cmGetOrSet, hmiss, hv]

/-- Witness for `getOrSet_contract` at a concrete miss with a produced
value. -/
theorem getOrSet_contract_witness :
    cmGetOrSet (⟨300, []⟩ : NCache Nat) 0 "k" (.ok (some 5)) none =
      (.ok (some 5), cmSet (⟨300, []⟩ : NCache Nat) 0 "k" 5 none, true) :=
  ((getOrSet_contract (⟨300, []⟩ : NCache Nat) 0 "k" (.ok (some 5)) none).2.1
    rfl 5 rfl).1

/-- C6 counterexample: `set(k, v, 0)` does not create a never-expiring entry.
With the default `stdTTL` of 300 s, a value set at instant 0 with
`ttlSeconds = 0` (and never overwritten or deleted) is readable at 100 s but
gone at 400 s. -/
theorem set_zero_ttl_expires_cex :
    cmGet (cmSet (⟨300, []⟩ : NCache Nat) 0 "k" 7 (some 0)) 100000 "k" = some 7 ∧
    cmGet (cmSet (⟨300, []⟩ : NCache Nat) 0 "k" 7 (some 0)) 400000 "k" = none := by
  exact ⟨rfl, rfl⟩

/-- C6 amended: `ttlSeconds = 0` is falsy in the wrapper and behaves exactly
like an omitted ttl (the store default TTL applies; with a non-zero `stdTTL`
the entry's livetime is `now + stdTTL·1000`), and a negative `ttlSeconds`
creates an entry that is already expired for every read past
`now + ttl·1000` (except the degenerate livetime-0 case, which node-cache
treats as never-expire).  Neither creates a never-expiring entry under the
shipped configuration. -/
theorem set_zero_or_negative_ttl_amended {V : Type} (c : NCache V) (now : Nat)
    (k : String) (v : V) :
    cmSet c now k v (some 0) = cmSet c now k v none ∧
    (∀ t : Int, t < 0 → (now : Int) + t * 1000 ≠ 0 →
      ∀ t2 : Nat, (now : Int) + t * 1000 < (t2 : Int) →
        cmGet (cmSet c now k v (some t)) t2 k = none) ∧
    (c.stdTTL ≠ 0 →
      ncLookup (cmSet c now k v none) k =
        some ⟨v, (now : Int) + c.stdTTL * 1000⟩) := by
  refine ⟨by simp [cmSet, ttlTruthy], ?_, ?_⟩
  · intro t ht hne t2 ht2
    have htz : t ≠ 0 := by omega
    have hset : cmSet c now k v (some t) = ncSet c now k v (some t) := by
      simp [cmSet, ttlTruthy, htz]
    rw [hset]
    have hlive : ncLivetime c now (some t) = (now : Int) + t * 1000 := by
      simp [ncLivetime, htz]
    simp only [cmGet, ncGet, ncLookup_ncSet_self, hlive]
    have h1 : ¬ ((now : Int) + t * 1000 = 0) := hne
    have h2 : ¬ ((t2 : Int) ≤ (now : Int) + t * 1000) := by omega
    simp [ncLive, h1, h2]
  · intro hstd
    rw [show cmSet c now k v none = ncSet c now k v none by simp [cmSet, ttlTruthy]]
    rw [ncLookup_ncSet_self]
    simp [ncLivetime, hstd]

/-- Witness for `set_zero_or_negative_ttl_amended`: ttl 0 equals the omitted
form, and a value set with ttl −1 at instant 0 is already gone at 1 ms. -/
theorem set_zero_or_negative_ttl_amended_witness :
    cmSet (⟨300, []⟩ : NCache Nat) 0 "k" 7 (some 0) =
      cmSet (⟨300, []⟩ : NCache Nat) 0 "k" 7 none ∧
    cmGet (cmSet (⟨300, []⟩ : NCache Nat) 0 "k" 7 (some (-1))) 1 "k" = none :=
  ⟨(set_zero_or_negative_ttl_amended (⟨300, []⟩ : NCache Nat) 0 "k" 7).1,
   (set_zero_or_negative_ttl_amended (⟨300, []⟩ : NCache Nat) 0 "k" 7).2.1
     (-1) (by decide) (by decide) 1 (by decide)⟩

/-- Every entry of the effective weight table has weight at least 1 when the
configured weights are non-negative (the `|| 1` fallback turns weight 0 into
1). -/
theorem one_le_enabled_weight (cfg : ArtConfig)
    (hw : ∀ p ∈ cfg.sources, (0 : Int) ≤ p.2.weight) :
    ∀ q ∈ enabledSources cfg, (1 : Int) ≤ q.2 := by
  intro q hq
  simp only [enabledSources, List.mem_map, List.mem_filter] at hq
  obtain ⟨p, ⟨hmem, _⟩, rfl⟩ := hq
  have h0 := hw p hmem
  by_cases hz : p.2.weight = 0
  · simp [hz]
  · simp only [hz, if_false]
    omega

/-- A list of integers that are each at least 1 and sum to zero is empty. -/
theorem eq_nil_of_sum_eq_zero (l : List Int) (h1 : ∀ x ∈ l, (1 : Int) ≤ x)
    (h0 : l.sum = 0) : l = [] := by
  cases l with
  | nil => rfl
  | cons a as =>
    exfalso
    have ha : (1 : Int) ≤ a := h1 a (List.mem_cons_self a as)
    have has : (0 : Int) ≤ as.sum :=
      List.sum_nonneg (fun x hx => le_trans zero_le_one (h1 x (List.mem_cons_of_mem a hx)))
    simp only [List.sum_cons] at h0
    omega

/-- C9: with non-negative configured weights, a category whose enabled
sources have effective weights summing to zero has no enabled sources at all,
and the pool build fails immediately with the fatal "No art sources enabled"
error (the check precedes the retry loop, so it is not retried). -/
theorem zero_weight_sum_fails (cfg : ArtConfig) (poolSize : Nat)
    (o : Option String) (oracle : FetchOracle)
    (hw : ∀ p ∈ cfg.sources, (0 : Int) ≤ p.2.weight)
    (h0 : ((enabledSources cfg).map (·.2)).sum = 0) :
    fetchArtworkPool cfg poolSize o oracle = .error "No art sources enabled" := by
  have hmap : (enabledSources cfg).map (·.2) = [] := by
    refine eq_nil_of_sum_eq_zero _ ?_ h0
    intro x hx
    obtain ⟨q, hq, rfl⟩ := List.mem_map.mp hx
    exact one_le_enabled_weight cfg hw q hq
  have hnil : enabledSources cfg = [] := List.map_eq_nil_iff.mp hmap
  simp [fetchArtworkPool, hnil]

/-- Witness for `zero_weight_sum_fails` on a configuration whose only source
is disabled. -/
theorem zero_weight_sum_fails_witness :
    (((enabledSources ⟨1, 3600, [("landscape", 1)], [("giphy", ⟨false, 0⟩)]⟩).map
        (·.2)).sum = 0) ∧
    fetchArtworkPool ⟨1, 3600, [("landscape", 1)], [("giphy", ⟨false, 0⟩)]⟩ 1
      none okOracle = .error "No art sources enabled" :=
  ⟨by decide,
   zero_weight_sum_fails ⟨1, 3600, [("landscape", 1)], [("giphy", ⟨false, 0⟩)]⟩ 1
     none okOracle (by decide) (by decide)⟩

/-- C10 counterexample: not every mode name yields a composite at all — the
unknown name "constructor" resolves through the prototype chain to the
inherited (truthy, non-mode) `Object` constructor, and `aggregateDashboard`
throws on `mode.includes.weather` instead of returning a composite with the
artwork fields. -/
theorem artwork_fields_throw_cex :
    MODES.lookup "constructor" = none ∧
    aggregateDashboard 0 "constructor" sampleOutcomes =
      .error protoModeTypeError := by
  exact ⟨by decide, by decide⟩

/-- C10 amended: for every mode name that resolves to a real mode (every
configured name and every unknown name that does not shadow an
`Object.prototype` property), the composite contains the `artworkCenter` /
`artworkRight` / `artworkTV` fields — independent of the mode, since artwork
is fetched unconditionally even for modes whose configuration lists no
artwork category — each slot carrying the fetched value on success and
`null` on failure.  Names shadowing `Object.prototype` properties make the
aggregator throw and return no composite. -/
theorem artwork_fields_mode_independent (now : Int) (nm1 nm2 : String)
    (out : FetchOutcomes) (m1 m2 : Mode)
    (h1 : getMode nm1 = .mode m1) (h2 : getMode nm2 = .mode m2) :
    aggregateDashboard now nm1 out = .ok (buildDashboard now nm1 m1 out) ∧
    aggregateDashboard now nm2 out = .ok (buildDashboard now nm2 m2 out) ∧
    (buildDashboard now nm1 m1 out).artworkCenter =
      (buildDashboard now nm2 m2 out).artworkCenter ∧
    (buildDashboard now nm1 m1 out).artworkRight =
      (buildDashboard now nm2 m2 out).artworkRight ∧
    (buildDashboard now nm1 m1 out).artworkTV =
      (buildDashboard now nm2 m2 out).artworkTV ∧
    (buildDashboard now nm1 m1 out).artworkCenter =
      (match out.artwork with | .ok a => a.artworkCenter | .fail _ => none) ∧
    (buildDashboard now nm1 m1 out).artworkRight =
      (match out.artwork with | .ok a => a.artworkRight | .fail _ => none) ∧
    (buildDashboard now nm1 m1 out).artworkTV =
      (match out.artwork with | .ok a => a.artworkTV | .fail _ => none) := by
  refine ⟨by simp [aggregateDashboard, h1], by simp [aggregateDashboard, h2],
    ?_, ?_, ?_, ?_, ?_, ?_⟩ <;>
    cases h : out.artwork <;>
      simp [buildDashboard, h]

/-- Witness for `artwork_fields_mode_independent`: the transit mode (which
lists no artwork category) and an unknown non-prototype name agree on the
artwork fields. -/
theorem artwork_fields_mode_independent_witness :
    aggregateDashboard 0 "transit" sampleOutcomes =
      .ok (buildDashboard 0 "transit"
        { name := "Transit"
          includes :=
            { weather := false, transit := true, calendar := false,
              tasks := false, nextEvent := false } } sampleOutcomes) ∧
    (buildDashboard 0 "transit"
        { name := "Transit"
          includes :=
            { weather := false, transit := true, calendar := false,
              tasks := false, nextEvent := false } } sampleOutcomes).artworkCenter =
      (buildDashboard 0 "unknown-mode-name" personalMode sampleOutcomes).artworkCenter :=
  ⟨(artwork_fields_mode_independent 0 "transit" "unknown-mode-name" sampleOutcomes
      { name := "Transit"
        includes :=
          { weather := false, transit := true, calendar := false,
            tasks := false, nextEvent := false } } personalMode
      (by decide) (by decide)).1,
   (artwork_fields_mode_independent 0 "transit" "unknown-mode-name" sampleOutcomes
      { name := "Transit"
        includes :=
          { weather := false, transit := true, calendar := false,
            tasks := false, nextEvent := false } } personalMode
      (by decide) (by decide)).2.2.1⟩

/-- C4 counterexample: `aggregateDashboard` of an unknown mode name is not
identical to that of the default mode — the composite echoes the raw
requested name in its `mode` field — and an unknown name is not always
error-free: "__proto__" resolves through the prototype chain and the
aggregator throws. -/
theorem unknown_mode_not_identical_cex :
    aggregateDashboard 0 "unknown-mode-name" sampleOutcomes ≠
      aggregateDashboard 0 "personal" sampleOutcomes ∧
    MODES.lookup "__proto__" = none ∧
    aggregateDashboard 0 "__proto__" sampleOutcomes =
      .error protoModeTypeError := by
  exact ⟨by decide, by decide, by decide⟩

/-- C4 amended: an unknown mode name whose lowercase form does not shadow an
`Object.prototype` property resolves to the configured default (personal)
mode without error, and its composite agrees with the default mode's
composite on every field except the echoed `mode` field, which carries the
requested name verbatim; an unknown name shadowing an `Object.prototype`
property ("constructor", "__proto__", …) makes property access return the
inherited non-mode object and the aggregator throw a TypeError. -/
theorem unknown_mode_amended (now : Int) (nm : String) (out : FetchOutcomes)
    (h : MODES.lookup (jsToLower nm) = none) :
    (objectProtoProps.contains (jsToLower nm) = false →
      getMode nm = .mode personalMode ∧
      aggregateDashboard now nm out = .ok (buildDashboard now nm personalMode out) ∧
      aggregateDashboard now "personal" out =
        .ok (buildDashboard now "personal" personalMode out) ∧
      (buildDashboard now nm personalMode out).mode = nm ∧
      buildDashboard now nm personalMode out =
        { buildDashboard now "personal" personalMode out with mode := nm }) ∧
    (objectProtoProps.contains (jsToLower nm) = true →
      getMode nm = .protoJunk ∧
      aggregateDashboard now nm out = .error protoModeTypeError) := by
  constructor
  · intro hproto
    have hproto2 : jsToLower nm ∉ objectProtoProps := by simpa using hproto
    have hm : getMode nm = .mode personalMode := by
      simp [getMode, h, hproto2]
    have hp : getMode "personal" = .mode personalMode := rfl
    exact ⟨hm, by simp [aggregateDashboard, hm], by simp [aggregateDashboard, hp],
      rfl, by simp [buildDashboard]⟩
  · intro hproto
    have hproto2 : jsToLower nm ∈ objectProtoProps := by simpa using hproto
    have hm : getMode nm = .protoJunk := by
      simp [getMode, h, hproto2]
    exact ⟨hm, by simp [aggregateDashboard, hm]⟩

/-- Witness for `unknown_mode_amended`: the fallback branch at the literal
name "unknown-mode-name" and the throwing branch at "constructor". -/
theorem unknown_mode_amended_witness :
    aggregateDashboard 0 "unknown-mode-name" sampleOutcomes =
      .ok (buildDashboard 0 "unknown-mode-name" personalMode sampleOutcomes) ∧
    (buildDashboard 0 "unknown-mode-name" personalMode sampleOutcomes).mode =
      "unknown-mode-name" ∧
    aggregateDashboard 0 "constructor" sampleOutcomes =
      .error protoModeTypeError :=
  ⟨((unknown_mode_amended 0 "unknown-mode-name" sampleOutcomes
      (by decide)).1 (by decide)).2.1,
   ((unknown_mode_amended 0 "unknown-mode-name" sampleOutcomes
      (by decide)).1 (by decide)).2.2.2.1,
   ((unknown_mode_amended 0 "constructor" sampleOutcomes
      (by decide)).2 (by decide)).2⟩

/-- The fetch loop only ever appends to its accumulator. -/
theorem poolLoop_extends (oracle : FetchOracle) (poolSize : Nat) :
    ∀ fuel attempt acc seen, ∃ tail,
      (poolLoop oracle poolSize fuel attempt acc seen).1 = acc ++ tail := by
  intro fuel
  induction fuel with
  | zero => intro attempt acc seen; exact ⟨[], by simp [poolLoop]⟩
  | succ n ih =>
    intro attempt acc seen
    by_cases hfull : poolSize ≤ acc.length
    · exact ⟨[], by simp [poolLoop, hfull]⟩
    · cases hor : oracle attempt with
      | error e =>
        obtain ⟨tail, ht⟩ := ih (attempt + 1) acc seen
        exact ⟨tail, by simp [poolLoop, hfull, hor, ht]⟩
      | ok aw =>
        by_cases hskip : jsFalsyStr aw.imageUrl = true ∨ dedupeKey aw ∈ seen
        · obtain ⟨tail, ht⟩ := ih (attempt + 1) acc seen
          exact ⟨tail, by simp [poolLoop, hfull, hor, hskip, ht]⟩
        · obtain ⟨tail, ht⟩ := ih (attempt + 1) (acc ++ [aw]) (seen ++ [dedupeKey aw])
          exact ⟨[aw] ++ tail, by simp [poolLoop, hfull, hor, hskip, ht]⟩

/-- The fetch loop consumes at most its remaining attempt budget. -/
theorem poolLoop_attempts_le (oracle : FetchOracle) (poolSize : Nat) :
    ∀ fuel attempt acc seen,
      (poolLoop oracle poolSize fuel attempt acc seen).2 ≤ fuel := by
  intro fuel
  induction fuel with
  | zero => intro attempt acc seen; simp [poolLoop]
  | succ n ih =>
    intro attempt acc seen
    by_cases hfull : poolSize ≤ acc.length
    · simp [poolLoop, hfull]
    · cases hor : oracle attempt with
      | error e =>
        have h := ih (attempt + 1) acc seen
        simp [poolLoop, hfull, hor]
        omega
      | ok aw =>
        by_cases hskip : jsFalsyStr aw.imageUrl = true ∨ dedupeKey aw ∈ seen
        · have h := ih (attempt + 1) acc seen
          simp [poolLoop, hfull, hor, hskip]
          omega
        · have h := ih (attempt + 1) (acc ++ [aw]) (seen ++ [dedupeKey aw])
          simp [poolLoop, hfull, hor, hskip]
          omega

/-- When the fetch loop starts from an empty accumulator and ends with an
empty pool, it has consumed its whole attempt budget. -/
theorem poolLoop_empty_full_budget (oracle : FetchOracle) (poolSize : Nat)
    (hpos : 0 < poolSize) :
    ∀ fuel attempt seen,
      (poolLoop oracle poolSize fuel attempt [] seen).1 = [] →
      (poolLoop oracle poolSize fuel attempt [] seen).2 = fuel := by
  intro fuel
  induction fuel with
  | zero => intro attempt seen _; simp [poolLoop]
  | succ n ih =>
    intro attempt seen hempty
    have hnz : poolSize ≠ 0 := by omega
    cases hor : oracle attempt with
    | error e =>
      simp [poolLoop, hor, hnz] at hempty ⊢
      exact ih (attempt + 1) seen hempty
    | ok aw =>
      by_cases hskip : jsFalsyStr aw.imageUrl = true ∨ dedupeKey aw ∈ seen
      · simp [poolLoop, hor, hskip, hnz] at hempty ⊢
        exact ih (attempt + 1) seen hempty
      · exfalso
        simp [poolLoop, hor, hskip, hnz] at hempty
        obtain ⟨tail, ht⟩ :=
          poolLoop_extends oracle poolSize n (attempt + 1) [aw] (seen ++ [dedupeKey aw])
        rw [ht] at hempty
        simp at hempty

/-- The fetch loop never collects more than `poolSize` items. -/
theorem poolLoop_length_le (oracle : FetchOracle) (poolSize : Nat) :
    ∀ fuel attempt acc seen, acc.length ≤ poolSize →
      (poolLoop oracle poolSize fuel attempt acc seen).1.length ≤ poolSize := by
  intro fuel
  induction fuel with
  | zero => intro attempt acc seen h; simpa [poolLoop] using h
  | succ n ih =>
    intro attempt acc seen h
    by_cases hfull : poolSize ≤ acc.length
    · simpa [poolLoop, hfull] using h
    · cases hor : oracle attempt with
      | error e =>
        have h2 := ih (attempt + 1) acc seen h
        simpa [poolLoop, hfull, hor] using h2
      | ok aw =>
        by_cases hskip : jsFalsyStr aw.imageUrl = true ∨ dedupeKey aw ∈ seen
        · have h2 := ih (attempt + 1) acc seen h
          simpa [poolLoop, hfull, hor, hskip] using h2
        · have hlen : (acc ++ [aw]).length ≤ poolSize := by simp; omega
          have h2 := ih (attempt + 1) (acc ++ [aw]) (seen ++ [dedupeKey aw]) hlen
          simpa [poolLoop, hfull, hor, hskip] using h2

/-- Items collected by the fetch loop have pairwise distinct dedupe keys:
every accumulated key is in `seen` and a new item is only accepted when its
key is not. -/
theorem poolLoop_pairwise (oracle : FetchOracle) (poolSize : Nat) :
    ∀ fuel attempt acc seen,
      (∀ a ∈ acc, dedupeKey a ∈ seen) →
      acc.Pairwise (fun a b => dedupeKey a ≠ dedupeKey b) →
      (poolLoop oracle poolSize fuel attempt acc seen).1.Pairwise
        (fun a b => dedupeKey a ≠ dedupeKey b) := by
  intro fuel
  induction fuel with
  | zero => intro attempt acc seen _ hpw; simpa [poolLoop] using hpw
  | succ n ih =>
    intro attempt acc seen hseen hpw
    by_cases hfull : poolSize ≤ acc.length
    · simpa [poolLoop, hfull] using hpw
    · cases hor : oracle attempt with
      | error e =>
        have h2 := ih (attempt + 1) acc seen hseen hpw
        simpa [poolLoop, hfull, hor] using h2
      | ok aw =>
        by_cases hskip : jsFalsyStr aw.imageUrl = true ∨ dedupeKey aw ∈ seen
        · have h2 := ih (attempt + 1) acc seen hseen hpw
          simpa [poolLoop, hfull, hor, hskip] using h2
        · have hnew : dedupeKey aw ∉ seen := fun hmem => hskip (Or.inr hmem)
          have hseen1 : ∀ a ∈ acc ++ [aw], dedupeKey a ∈ seen ++ [dedupeKey aw] := by
            intro a ha
            rcases List.mem_append.mp ha with hmem | hmem
            · exact List.mem_append.mpr (Or.inl (hseen a hmem))
            · simp at hmem
              subst hmem
              simp
          have hpw1 : (acc ++ [aw]).Pairwise (fun a b => dedupeKey a ≠ dedupeKey b) := by
            rw [List.pairwise_append]
            refine ⟨hpw, by simp, ?_⟩
            intro a ha b hb
            simp at hb
            subst hb
            intro heq
            exact hnew (heq ▸ hseen a ha)
          have h2 := ih (attempt + 1) (acc ++ [aw]) (seen ++ [dedupeKey aw]) hseen1 hpw1
          simpa [poolLoop, hfull, hor, hskip] using h2

/-- C7: a successfully built pool is non-empty and contains no two items with
the same identity pair (sourceKey, id). -/
theorem pool_identity_distinct (cfg : ArtConfig) (poolSize : Nat)
    (o : Option String) (oracle : FetchOracle) (pool : List Artwork)
    (h : fetchArtworkPool cfg poolSize o oracle = .ok pool) :
    pool ≠ [] ∧
    pool.Pairwise (fun a b => ¬(a.source = b.source ∧ a.id = b.id)) := by
  unfold fetchArtworkPool at h
  by_cases hsrc : (enabledSources cfg).isEmpty = true
  · rw [if_pos hsrc] at h
    exact absurd h (by simp)
  · rw [if_neg hsrc] at h
    by_cases hempty : ((poolLoop oracle poolSize (poolSize * 4) 0 [] []).1).isEmpty = true
    · rw [if_pos hempty] at h
      exact absurd h (by simp)
    · rw [if_neg hempty] at h
      injection h with h
      subst h
      refine ⟨by simpa using hempty, ?_⟩
      have hpw := poolLoop_pairwise oracle poolSize (poolSize * 4) 0 [] []
        (by simp) (by simp)
      refine hpw.imp ?_
      intro a b hne hab
      exact hne (by simp [dedupeKey, hab.1, hab.2])

/-- Witness for `pool_identity_distinct` on a concrete successful build. -/
theorem pool_identity_distinct_witness :
    fetchArtworkPool tinyArtConfig 1 (some "portrait") okOracle =
      .ok [sampleArtwork] ∧
    ([sampleArtwork] ≠ [] ∧
      List.Pairwise (fun a b => ¬(a.source = b.source ∧ a.id = b.id))
        [sampleArtwork]) :=
  ⟨by decide,
   pool_identity_distinct tinyArtConfig 1 (some "portrait") okOracle
     [sampleArtwork] (by decide)⟩

/-- C8: the pool build makes at most `poolSize × 4` fetch attempts; it fails
with the pool-build-failed error exactly when zero items were collected, in
which case the whole attempt budget was consumed; and any non-empty
collection — even one smaller than the target — is returned as a successful
(partial) pool of at most `poolSize` items. -/
theorem pool_build_attempt_budget (cfg : ArtConfig) (poolSize : Nat)
    (o : Option String) (oracle : FetchOracle)
    (hs : enabledSources cfg ≠ []) :
    (poolLoop oracle poolSize (poolSize * 4) 0 [] []).2 ≤ poolSize * 4 ∧
    (fetchArtworkPool cfg poolSize o oracle = .error (poolFailMsg o) ↔
      (poolLoop oracle poolSize (poolSize * 4) 0 [] []).1 = []) ∧
    (0 < poolSize → (poolLoop oracle poolSize (poolSize * 4) 0 [] []).1 = [] →
      (poolLoop oracle poolSize (poolSize * 4) 0 [] []).2 = poolSize * 4) ∧
    (∀ pool, (poolLoop oracle poolSize (poolSize * 4) 0 [] []).1 = pool →
      pool ≠ [] →
      fetchArtworkPool cfg poolSize o oracle = .ok pool ∧
      pool.length ≤ poolSize) := by
  have hnil : ¬ (enabledSources cfg).isEmpty = true := by
    simpa using hs
  refine ⟨poolLoop_attempts_le oracle poolSize (poolSize * 4) 0 [] [], ?_, ?_, ?_⟩
  · constructor
    · intro h
      unfold fetchArtworkPool at h
      rw [if_neg hnil] at h
      by_cases hempty : (poolLoop oracle poolSize (poolSize * 4) 0 [] []).1 = []
      · exact hempty
      · rw [if_neg (by simpa using hempty)] at h
        exact absurd h (by simp)
    · intro h
      unfold fetchArtworkPool
      rw [if_neg hnil, if_pos (by simpa using h)]
  · exact fun hpos h => poolLoop_empty_full_budget oracle poolSize hpos
      (poolSize * 4) 0 [] h
  · intro pool hpool hne
    constructor
    · unfold fetchArtworkPool
      rw [if_neg hnil]
      rw [if_neg (by rw [hpool]; simpa using hne), hpool]
    · rw [← hpool]
      exact poolLoop_length_le oracle poolSize (poolSize * 4) 0 [] [] (by simp)

/-- Witness for `pool_build_attempt_budget`: with pool size 1 and an oracle
that always returns the same item, the loop stops after one attempt, inside
the budget of 4, and the partial pool is returned successfully. -/
theorem pool_build_attempt_budget_witness :
    enabledSources tinyArtConfig ≠ [] ∧
    (poolLoop okOracle 1 4 0 [] []).2 ≤ 4 ∧
    fetchArtworkPool tinyArtConfig 1 (some "portrait") okOracle =
      .ok [sampleArtwork] :=
  ⟨by decide,
   (pool_build_attempt_budget tinyArtConfig 1 (some "portrait") okOracle
      (by decide)).1,
   ((pool_build_attempt_budget tinyArtConfig 1 (some "portrait") okOracle
      (by decide)).2.2.2 [sampleArtwork] (by decide) (by decide)).1⟩

/-- An included failing weather fetch contributes its entry to the error
map. -/
theorem fail_mem_errors_weather (m : Mode) (out : FetchOutcomes) (e : String)
    (hin : m.includes.weather = true) (hf : out.weather = .fail e) :
    ("weather", e) ∈ dashboardErrors m out := by
  simp [dashboardErrors, failEntry, hin, hf]

/-- An included failing transit fetch contributes its entry to the error
map. -/
theorem fail_mem_errors_transit (m : Mode) (out : FetchOutcomes) (e : String)
    (hin : m.includes.transit = true) (hf : out.transit = .fail e) :
    ("transit", e) ∈ dashboardErrors m out := by
  simp [dashboardErrors, failEntry, hin, hf]

/-- An included failing calendar fetch contributes its entry to the error
map. -/
theorem fail_mem_errors_calendar (m : Mode) (out : FetchOutcomes) (e : String)
    (hin : m.includes.calendar = true) (hf : out.calendar = .fail e) :
    ("calendar", e) ∈ dashboardErrors m out := by
  simp [dashboardErrors, failEntry, hin, hf]

/-- An included failing tasks fetch contributes its entry to the error map. -/
theorem fail_mem_errors_tasks (m : Mode) (out : FetchOutcomes) (e : String)
    (hin : m.includes.tasks = true) (hf : out.tasks = .fail e) :
    ("tasks", e) ∈ dashboardErrors m out := by
  simp [dashboardErrors, failEntry, hin, hf]

/-- A failing artwork fetch always contributes its entry to the error map
(artwork is fetched for every mode). -/
theorem fail_mem_errors_artwork (m : Mode) (out : FetchOutcomes) (e : String)
    (hf : out.artwork = .fail e) :
    ("artwork", e) ∈ dashboardErrors m out := by
  simp [dashboardErrors, failEntry, hf]

/-- C2: for a mode name that resolves to a real mode — which every
configured mode does — when the error map of the mode's fetches is the
single entry `(k, msg)` (exactly one fetched category failed and every other
fetched category succeeded), the aggregate returns a composite rather than
throwing (every wrapper catches its own failure), still populates every
other included category's field from that category's successful result, and
its `errors` field is exactly that one entry. -/
theorem aggregate_isolated_failure (now : Int) (modeName : String)
    (out : FetchOutcomes) (k : String) (msg : String) (m : Mode)
    (hm : getMode modeName = .mode m)
    (hk : dashboardErrors m out = [(k, msg)]) :
    aggregateDashboard now modeName out =
      .ok (buildDashboard now modeName m out) ∧
    (buildDashboard now modeName m out).errors = some [(k, msg)] ∧
    (m.includes.weather = true → k ≠ "weather" →
      frIsOk out.weather = true ∧
      (buildDashboard now modeName m out).weather =
        some (formatWeatherData out.weather)) ∧
    (m.includes.transit = true → k ≠ "transit" →
      frIsOk out.transit = true ∧
      (buildDashboard now modeName m out).transit =
        some (formatTransitData out.transit)) ∧
    (m.includes.calendar = true → k ≠ "calendar" →
      frIsOk out.calendar = true ∧
      (buildDashboard now modeName m out).events =
        some (frListData out.calendar)) ∧
    (m.includes.tasks = true → k ≠ "tasks" →
      frIsOk out.tasks = true ∧
      (buildDashboard now modeName m out).tasks =
        some (if m.includes.urgentTasksOnly then
                filterUrgentTasks now (frListData out.tasks)
              else frListData out.tasks)) ∧
    (k ≠ "artwork" →
      ∃ a, out.artwork = .ok a ∧
        (buildDashboard now modeName m out).artworkCenter = a.artworkCenter ∧
        (buildDashboard now modeName m out).artworkRight = a.artworkRight ∧
        (buildDashboard now modeName m out).artworkTV = a.artworkTV) := by
  refine ⟨by simp [aggregateDashboard, hm], by simp [buildDashboard, hk],
    ?_, ?_, ?_, ?_, ?_⟩
  · intro hin hne
    cases hw : out.weather with
    | fail e =>
      exfalso
      have hmem := fail_mem_errors_weather m out e hin hw
      rw [hk] at hmem
      simp at hmem
      exact hne hmem.1.symm
    | ok w =>
      exact ⟨by simp [frIsOk, hw], by simp [buildDashboard, hin, hw]⟩
  · intro hin hne
    cases hw : out.transit with
    | fail e =>
      exfalso
      have hmem := fail_mem_errors_transit m out e hin hw
      rw [hk] at hmem
      simp at hmem
      exact hne hmem.1.symm
    | ok w =>
      exact ⟨by simp [frIsOk, hw], by simp [buildDashboard, hin, hw]⟩
  · intro hin hne
    cases hw : out.calendar with
    | fail e =>
      exfalso
      have hmem := fail_mem_errors_calendar m out e hin hw
      rw [hk] at hmem
      simp at hmem
      exact hne hmem.1.symm
    | ok w =>
      exact ⟨by simp [frIsOk, hw], by simp [buildDashboard, hin, hw]⟩
  · intro hin hne
    cases hw : out.tasks with
    | fail e =>
      exfalso
      have hmem := fail_mem_errors_tasks m out e hin hw
      rw [hk] at hmem
      simp at hmem
      exact hne hmem.1.symm
    | ok w =>
      exact ⟨by simp [frIsOk, hw], by simp [buildDashboard, hin, hw]⟩
  · intro hne
    cases ha : out.artwork with
    | fail e =>
      exfalso
      have hmem := fail_mem_errors_artwork m out e ha
      rw [hk] at hmem
      simp at hmem
      exact hne hmem.1.symm
    | ok a =>
      exact ⟨a, rfl, by simp [buildDashboard, ha],
        by simp [buildDashboard, ha], by simp [buildDashboard, ha]⟩

/-- Witness for `aggregate_isolated_failure`: personal mode with only the
weather fetch failing. -/
theorem aggregate_isolated_failure_witness :
    dashboardErrors personalMode oneFailOutcomes = [("weather", "boom")] ∧
    aggregateDashboard 0 "personal" oneFailOutcomes =
      .ok (buildDashboard 0 "personal" personalMode oneFailOutcomes) ∧
    (buildDashboard 0 "personal" personalMode oneFailOutcomes).errors =
      some [("weather", "boom")] ∧
    (buildDashboard 0 "personal" personalMode oneFailOutcomes).transit =
      some (formatTransitData oneFailOutcomes.transit) :=
  ⟨by decide,
   (aggregate_isolated_failure 0 "personal" oneFailOutcomes "weather" "boom"
      personalMode (by decide) (by decide)).1,
   (aggregate_isolated_failure 0 "personal" oneFailOutcomes "weather" "boom"
      personalMode (by decide) (by decide)).2.1,
   ((aggregate_isolated_failure 0 "personal" oneFailOutcomes "weather" "boom"
      personalMode (by decide) (by decide)).2.2.2.1 (by decide) (by decide)).2⟩

/-- Two instants in the same width-`W` slot lie before the slot's end, and
the second is within `W` of the first. -/
theorem slot_window (W now1 now2 : Nat) (hW : 0 < W)
    (hs : now1 / W = now2 / W) :
    now2 < (now1 / W + 1) * W ∧ now2 ≤ now1 + W := by
  have e2 := Nat.div_add_mod now2 W
  have m2 : now2 % W < W := Nat.mod_lt _ hW
  have h2 : now2 < W * (now2 / W) + W := by omega
  have h1 : now1 / W * W ≤ now1 := Nat.div_mul_le_self now1 W
  constructor
  · calc now2 < W * (now2 / W) + W := h2
      _ = (now1 / W + 1) * W := by rw [hs]; ring
  · have hlt : now2 < now1 + W := calc
      now2 < W * (now2 / W) + W := h2
      _ = now1 / W * W + W := by rw [hs]; ring
      _ ≤ now1 + W := Nat.add_le_add_right h1 W
    exact hlt.le

/-- A value set through the wrapper with a non-zero explicit ttl is readable
at any instant up to `now + ttl·1000`. -/
theorem cmGet_cmSet_pos {V : Type} (c : NCache V) (now1 now2 : Nat)
    (k : String) (v : V) (ttl : Int) (ht : ttl ≠ 0)
    (hle : (now2 : Int) ≤ (now1 : Int) + ttl * 1000) :
    cmGet (cmSet c now1 k v (some ttl)) now2 k = some v := by
  have hset : cmSet c now1 k v (some ttl) = ncSet c now1 k v (some ttl) := by
    simp [cmSet, ttlTruthy, ht]
  have hlt : ncLivetime c now1 (some ttl) = (now1 : Int) + ttl * 1000 := by
    simp [ncLivetime, ht]
  rw [hset]
  unfold cmGet ncGet
  rw [ncLookup_ncSet_self, hlt]
  have hlive : ncLive now2 (⟨v, (now1 : Int) + ttl * 1000⟩ : NCEntry V) = true := by
    simp [ncLive]
    omega
  simp [hlive]

/-- C1: two calls to `getArtworkByOrientation` for the same orientation and
filter set at instants in the same rotation slot return the identical item:
once a call completes through the rotation `getOrSet` (returning an item
rather than taking the error-fallback path), any later call in the same slot
hits the slot cache — whatever its own fetches would do — and returns the
same item and state.  The well-formedness hypothesis `hwf` states what the
system guarantees for pre-existing slot entries: a cached entry for this slot
(only ever written by this function with ttl = interval from inside the slot)
does not expire before the slot ends. -/
theorem rotation_same_slot_identical (cfg : ArtConfig) (o : String)
    (f : Option (List String)) (c : CState) (now1 now2 : Nat)
    (or1 or2 : FetchOracle) (v : CVal) (c1 : CState) (b : Bool)
    (hI : 0 < rotationInterval cfg o)
    (hs : now1 / (rotationInterval cfg o * 1000) =
      now2 / (rotationInterval cfg o * 1000))
    (hwf : ∀ e,
      ncLookup c
        (rotationKey o f (now1 / (rotationInterval cfg o * 1000))) = some e →
      e.t = 0 ∨
        (((now1 / (rotationInterval cfg o * 1000) + 1) *
          (rotationInterval cfg o * 1000) : Nat) : Int) ≤ e.t)
    (h1 : rotCall cfg or1 now1 o f c = (.ok (some v), c1, b)) :
    getArtworkByOrientation cfg or1 now1 o f c = (some v, c1) ∧
    getArtworkByOrientation cfg or2 now2 o f c1 = (some v, c1) := by
  have hW : 0 < rotationInterval cfg o * 1000 := by omega
  obtain ⟨hwin1, hwin2⟩ :=
    slot_window (rotationInterval cfg o * 1000) now1 now2 hW hs
  have hgoal1 : getArtworkByOrientation cfg or1 now1 o f c = (some v, c1) := by
    unfold getArtworkByOrientation
    rw [h1]
  refine ⟨hgoal1, ?_⟩
  suffices hget2 : cmGet c1 now2
      (rotationKey o f (now1 / (rotationInterval cfg o * 1000))) = some v by
    unfold getArtworkByOrientation rotCall
    rw [show rotationKey o f (now2 / (rotationInterval cfg o * 1000)) =
      rotationKey o f (now1 / (rotationInterval cfg o * 1000)) by rw [hs]]
    unfold cmGetOrSetF
    rw [hget2]
  unfold rotCall cmGetOrSetF at h1
  cases hget : cmGet c now1
      (rotationKey o f (now1 / (rotationInterval cfg o * 1000))) with
  | some v0 =>
    simp only [hget, Prod.mk.injEq, Except.ok.injEq, Option.some.injEq] at h1
    obtain ⟨hv0, hc, hb⟩ := h1
    subst hv0
    subst hc
    unfold cmGet ncGet at hget ⊢
    cases hlk : ncLookup c
        (rotationKey o f (now1 / (rotationInterval cfg o * 1000))) with
    | none =>
      rw [hlk] at hget
      exact absurd hget (by simp)
    | some e =>
      simp only [hlk] at hget ⊢
      by_cases hlive : ncLive now1 e = true
      · rw [if_pos hlive] at hget
        injection hget with hval
        have hlive2 : ncLive now2 e = true := by
          rcases hwf e hlk with h0 | hle
          · simp [ncLive, h0]
          · have hcast : ((now2 : Nat) : Int) <
                (((now1 / (rotationInterval cfg o * 1000) + 1) *
                  (rotationInterval cfg o * 1000) : Nat) : Int) := by
              exact_mod_cast hwin1
            have hn2 : (now2 : Int) ≤ e.t := by omega
            simp [ncLive, hn2]
        rw [if_pos hlive2, hval]
      · rw [if_neg hlive] at hget
        exact absurd hget (by simp)
  | none =>
    simp only [hget] at h1
    rcases hp : rotProducer cfg or1 now1 o f
        (now1 / (rotationInterval cfg o * 1000)) c with ⟨pr, cp⟩
    rw [hp] at h1
    cases pr with
    | error e => simp at h1
    | ok w =>
      cases w with
      | none => simp at h1
      | some w =>
        simp only [Prod.mk.injEq, Except.ok.injEq, Option.some.injEq] at h1
        obtain ⟨hw, hc1, hb⟩ := h1
        subst hw
        subst hc1
        have ht : ((rotationInterval cfg o : Nat) : Int) ≠ 0 := by
          exact_mod_cast Nat.pos_iff_ne_zero.mp hI
        apply cmGet_cmSet_pos
        · exact ht
        · have : (now2 : Int) ≤ ((now1 + rotationInterval cfg o * 1000 : Nat) : Int) := by
            exact_mod_cast hwin2
          push_cast at this ⊢
          omega

/-- Witness for `rotation_same_slot_identical`: a first call at 0 ms fills
the slot cache; a second call at 500 ms in the same 1-second slot — even with
an always-failing fetch oracle — returns the identical item and state. -/
theorem rotation_same_slot_identical_witness :
    rotCall tinyArtConfig okOracle 0 "portrait" none emptyCache =
      (.ok (some (.item sampleArtwork)), rotState1, true) ∧
    getArtworkByOrientation tinyArtConfig errOracle 500 "portrait" none rotState1 =
      (some (.item sampleArtwork), rotState1) :=
  ⟨by decide,
   (rotation_same_slot_identical tinyArtConfig "portrait" none emptyCache 0 500
      okOracle errOracle (.item sampleArtwork) rotState1 true (by decide)
      (by decide) (by intro e h; simp [ncLookup, emptyCache] at h)
      (by decide)).2⟩

/-- C3: when the rotation `getOrSet` fails (pool build failure or adapter
exception), `getArtworkByOrientation` still returns normally: the first
element of a still-cached non-empty pool for this orientation and filter set
when one exists, and the `FALLBACK_ARTWORK` sentinel otherwise. -/
theorem rotation_failure_fallback (cfg : ArtConfig) (oracle : FetchOracle)
    (now : Nat) (o : String) (f : Option (List String)) (c : CState)
    (e : String) (c1 : CState) (b : Bool)
    (h : rotCall cfg oracle now o f c = (.error e, c1, b)) :
    getArtworkByOrientation cfg oracle now o f c =
      (match cmGet c1 now (poolKey o f) with
       | some (.pool (a :: _)) => some (.item a)
       | _ => FALLBACK_ARTWORK, c1) := by
  unfold getArtworkByOrientation
  simp only [h]
  cases hg : cmGet c1 now (poolKey o f) with
  | none => rfl
  | some v =>
    cases v with
    | item a => rfl
    | pool p =>
      cases p with
      | nil => rfl
      | cons a rest => rfl

/-- Witness for `rotation_failure_fallback`: with every fetch failing and an
empty cache, the rotation call errors and the getter returns the fallback
sentinel with the cache unchanged. -/
theorem rotation_failure_fallback_witness :
    rotCall tinyArtConfig errOracle 0 "portrait" none emptyCache =
      (.error "Failed to fetch any portrait artworks for pool", emptyCache, true) ∧
    getArtworkByOrientation tinyArtConfig errOracle 0 "portrait" none emptyCache =
      (FALLBACK_ARTWORK, emptyCache) :=
  ⟨by decide,
   (rotation_failure_fallback tinyArtConfig errOracle 0 "portrait" none
      emptyCache "Failed to fetch any portrait artworks for pool" emptyCache true
      (by decide)).trans (by decide)⟩

end DashboardApi
